import Mathlib

/-!
# Verification of the ReviewHub personalized recommendation engine

Shallow embedding of `reviewhub-backend/recommendation_engine.py` (class
`RecommendationEngine`) together with the relevant parts of the data model
from `app_enhanced.py` (`UserInteraction`, `Product`, `Category`).

Modelling conventions:
* Python floats are modelled by `ℚ` (all constants in the source are exact
  decimals), SQL integer ids by `ℕ`, timestamps by `ℤ`.
* Nullable columns are `Option` values; Python truthiness tests
  (`if product.brand:`, `if interaction.rating:`, ...) are modelled by
  `truthyS` / `truthyQ` (both `None` and zero / empty string are falsy).
* `Product.average_rating` is a computed property in the source
  (0 when the product has no reviews, otherwise the mean of review ratings);
  it is modelled as a plain field holding that computed value.
* SQLAlchemy queries are modelled as list traversals over an explicit
  database snapshot (`DB`); inner joins drop rows whose foreign key has no
  target.  `dict` accumulation (`defaultdict(float)`) is modelled by the
  association-list update `bump`; Python's stable `sort(reverse=True)` by
  the stable insertion sort `sortDescBy`.
* The per-user preference cache always holds the value that
  `_update_user_preferences` recomputes, so preference reads are modelled by
  the pure recomputation `updateUserPreferences`.
-/

namespace ReviewHub

/-- Python truthiness of a nullable numeric column: `None` and `0` are falsy. -/
def truthyQ : Option ℚ → Bool
  | none => false
  | some v => decide (v ≠ 0)

/-- Python truthiness of a nullable string column: `None` and `""` are falsy. -/
def truthyS : Option String → Bool
  | none => false
  | some s => decide (s ≠ "")

/-- `UserInteraction` row (`app_enhanced.py`). -/
structure Interaction where
  user_id : ℕ
  product_id : ℕ
  interaction_type : String
  rating : Option ℚ
  timestamp : ℤ
deriving DecidableEq, Repr

/-- `Product` row (`app_enhanced.py`); `average_rating` is the computed
review-mean property (0 when the product has no reviews). -/
structure Product where
  id : ℕ
  category_id : ℕ
  brand : Option String
  price_min : Option ℚ
  price_max : Option ℚ
  average_rating : ℚ
  is_active : Bool
deriving DecidableEq, Repr

/-- `Category` row (`app_enhanced.py`). -/
structure Category where
  id : ℕ
  name : String
deriving DecidableEq, Repr

/-- Snapshot of the store the engine queries. -/
structure DB where
  users : List ℕ
  categories : List Category
  products : List Product
  interactions : List Interaction
deriving DecidableEq, Repr

/-- `_get_interaction_weight`: `weights.get(interaction_type, 1.0)` over
`{'view': 1.0, 'search': 1.5, 'review': 3.0, 'purchase': 5.0}`. -/
def getInteractionWeight (t : String) : ℚ :=
  if t = "view" then 1
  else if t = "search" then 3/2
  else if t = "review" then 3
  else if t = "purchase" then 5
  else 1

/-- `defaultdict(float)` update `d[k] += w` on an association list. -/
def bump {κ : Type} [DecidableEq κ] : List (κ × ℚ) → κ → ℚ → List (κ × ℚ)
  | [], k, w => [(k, w)]
  | kv :: rest, k, w =>
    if kv.1 = k then (kv.1, kv.2 + w) :: rest else kv :: bump rest k w

/-- Accumulate a list of `(key, increment)` contributions into a
`defaultdict(float)`, in order. -/
def aggregate {κ : Type} [DecidableEq κ] (l : List (κ × ℚ)) : List (κ × ℚ) :=
  l.foldl (fun m kw => bump m kw.1 kw.2) []

/-- Stable insertion (by a rational key, descending): the new element goes
after every element whose key is ≥ its own. -/
def insertDescBy {α : Type} (key : α → ℚ) (x : α) : List α → List α
  | [] => [x]
  | y :: ys => if key y < key x then x :: y :: ys else y :: insertDescBy key x ys

/-- Python's stable `sort(key=..., reverse=True)`. -/
def sortDescBy {α : Type} (key : α → ℚ) (l : List α) : List α :=
  l.foldl (fun acc x => insertDescBy key x acc) []

/-- `(price_min + price_max) / 2` (callers guard both bounds truthy). -/
def avgPrice (p : Product) : ℚ := (p.price_min.getD 0 + p.price_max.getD 0) / 2

/-- `_calculate_product_similarity`, category block: `+ 0.4` on equal
`category_id`. -/
def categoryTerm (p1 p2 : Product) : ℚ :=
  if p1.category_id = p2.category_id then 2/5 else 0

/-- `_calculate_product_similarity`, brand block:
`if product1.brand and product2.brand and product1.brand == product2.brand`. -/
def brandTerm (p1 p2 : Product) : ℚ :=
  if truthyS p1.brand ∧ truthyS p2.brand ∧ p1.brand = p2.brand then 3/10 else 0

/-- `_calculate_product_similarity`, price block: guarded by truthiness of
all four bounds; `max(0, 1 - |price1 - price2| / max(price1, price2)) * 0.2`. -/
def priceTerm (p1 p2 : Product) : ℚ :=
  if truthyQ p1.price_min ∧ truthyQ p1.price_max ∧
      truthyQ p2.price_min ∧ truthyQ p2.price_max then
    max 0 (1 - |avgPrice p1 - avgPrice p2| / max (avgPrice p1) (avgPrice p2)) * (1/5)
  else 0

/-- `_calculate_product_similarity`, rating block (unconditional):
`max(0, 1 - |rating1 - rating2| / 5.0) * 0.1`. -/
def ratingTerm (p1 p2 : Product) : ℚ :=
  max 0 (1 - |p1.average_rating - p2.average_rating| / 5) * (1/10)

/-- `_calculate_product_similarity`: the four accumulated contributions. -/
def calculateProductSimilarity (p1 p2 : Product) : ℚ :=
  categoryTerm p1 p2 + brandTerm p1 p2 + priceTerm p1 p2 + ratingTerm p1 p2

/-- Distinct product ids a user has interactions against
(`set(i.product_id for i in UserInteraction.query.filter_by(user_id=...))`). -/
def userProductSet (db : DB) (u : ℕ) : Finset ℕ :=
  ((db.interactions.filter (fun i => i.user_id == u)).map
    (fun i => i.product_id)).toFinset

/-- Jaccard similarity of two users' interacted-product sets
(`intersection / union`, as computed in `_collaborative_filtering`). -/
def jaccard (db : DB) (u v : ℕ) : ℚ :=
  ((userProductSet db u ∩ userProductSet db v).card : ℚ) /
    ((userProductSet db u ∪ userProductSet db v).card : ℚ)

/-- `_collaborative_filtering`, neighbour discovery: every other user with
non-empty union and Jaccard similarity `> 0.1`, sorted by similarity
descending (the `[:10]` cut happens at the use site). -/
def similarUsers (db : DB) (u : ℕ) : List (ℕ × ℚ) :=
  sortDescBy (fun x => x.2)
    ((db.users.filter (fun v => v != u)).filterMap (fun v =>
      if 0 < ((userProductSet db u ∪ userProductSet db v).card) then
        if 1/10 < jaccard db u v then some (v, jaccard db u v) else none
      else none))

/-- One neighbour event's contribution in `_collaborative_filtering`:
`similarity * interaction_weight`, times `rating / 5.0` when the event
carries a (truthy) rating. -/
def collabContribution (sim : ℚ) (t : String) (rating : Option ℚ) : ℚ :=
  let w := sim * getInteractionWeight t
  if truthyQ rating then w * (rating.getD 0 / 5) else w

/-- `_collaborative_filtering`, accumulation loop flattened: for the top-10
similar users in order, each of their interactions on a product the target
user has not interacted with yields a scored contribution. -/
def collabContribs (db : DB) (u : ℕ) : List (ℕ × ℚ) :=
  ((similarUsers db u).take 10).flatMap (fun sv =>
    (db.interactions.filter (fun i => i.user_id == sv.1)).filterMap (fun i =>
      if i.product_id ∈ userProductSet db u then none
      else some (i.product_id, collabContribution sv.2 i.interaction_type i.rating)))

/-- `_collaborative_filtering`: empty when the user has no interactions,
otherwise the accumulated scores sorted descending, truncated to `limit`. -/
def collabFiltering (db : DB) (u : ℕ) (limit : ℕ) : List (ℕ × ℚ) :=
  if userProductSet db u = ∅ then []
  else (sortDescBy (fun x => x.2) (aggregate (collabContribs db u))).take limit

/-- `PreferenceModel` dictionary produced by `_update_user_preferences`. -/
structure Preferences where
  categories : List (String × ℚ)
  brands : List (String × ℚ)
  avg_price_preference : Option ℚ
  avg_rating_given : Option ℚ
  interaction_count : ℕ
deriving DecidableEq, Repr

/-- `_update_user_preferences` input query: user's interactions inner-joined
with their product and the product's category. -/
def joinedInteractions (db : DB) (u : ℕ) : List (Interaction × Product × Category) :=
  (db.interactions.filter (fun i => i.user_id == u)).filterMap (fun i =>
    (db.products.find? (fun p => p.id == i.product_id)).bind (fun p =>
      (db.categories.find? (fun c => c.id == p.category_id)).map (fun c => (i, p, c))))

/-- `_update_user_preferences` normalisation: divide by the total when it is
positive, leave the map untouched otherwise. -/
def normalizeW (m : List (String × ℚ)) : List (String × ℚ) :=
  let total := (m.map (fun kv => kv.2)).sum
  if 0 < total then m.map (fun kv => (kv.1, kv.2 / total)) else m

/-- `_update_user_preferences` accumulation loop, category dimension:
`category_scores[category.name] += weight` over the joined rows. -/
def categoryScoresRaw (db : DB) (u : ℕ) : List (String × ℚ) :=
  aggregate ((joinedInteractions db u).map (fun r =>
    (r.2.2.name, getInteractionWeight r.1.interaction_type)))

/-- `_update_user_preferences` accumulation loop, brand dimension:
`if product.brand: brand_scores[product.brand] += weight`. -/
def brandScoresRaw (db : DB) (u : ℕ) : List (String × ℚ) :=
  aggregate ((joinedInteractions db u).filterMap (fun r =>
    if truthyS r.2.1.brand then
      some (r.2.1.brand.getD "", getInteractionWeight r.1.interaction_type)
    else none))

/-- `_update_user_preferences`: weighted category/brand scores (normalised),
mean price of interacted products with both bounds, mean of truthy ratings. -/
def updateUserPreferences (db : DB) (u : ℕ) : Preferences :=
  let rows := joinedInteractions db u
  let pricePrefs := rows.filterMap (fun r =>
    if truthyQ r.2.1.price_min ∧ truthyQ r.2.1.price_max then some (avgPrice r.2.1)
    else none)
  let ratingPrefs := rows.filterMap (fun r =>
    if truthyQ r.1.rating then some (r.1.rating.getD 0) else none)
  { categories := normalizeW (categoryScoresRaw db u)
    brands := normalizeW (brandScoresRaw db u)
    avg_price_preference :=
      if pricePrefs.isEmpty then none else some (pricePrefs.sum / (pricePrefs.length : ℚ))
    avg_rating_given :=
      if ratingPrefs.isEmpty then none else some (ratingPrefs.sum / (ratingPrefs.length : ℚ))
    interaction_count := rows.length }

/-- Dictionary lookup `user_prefs['brands'].get(brand)`. -/
def lookupWeight (m : List (String × ℚ)) (k : String) : Option ℚ :=
  (m.find? (fun kv => kv.1 == k)).map (fun kv => kv.2)

/-- `_content_based_filtering` per-product score: the category weight,
boosted by `(1 + brand_weight)` when the (truthy) brand is preferred, and
multiplied by `average_rating / 5.0` only when `average_rating > 0`. -/
def contentScore (prefs : Preferences) (p : Product) (categoryScore : ℚ) : ℚ :=
  let s := categoryScore
  let s :=
    if truthyS p.brand then
      match lookupWeight prefs.brands (p.brand.getD "") with
      | some bw => s * (1 + bw)
      | none => s
    else s
  if 0 < p.average_rating then s * (p.average_rating / 5) else s

/-- `_content_based_filtering`: empty when the preference model has no
category weights; otherwise, for each preferred category (resolved back to a
`Category` row by name), score every active product of that category the
user has not interacted with; sort descending, truncate. -/
def contentFiltering (db : DB) (u : ℕ) (limit : ℕ) : List (ℕ × ℚ) :=
  let prefs := updateUserPreferences db u
  if prefs.categories.isEmpty then []
  else
    let up := userProductSet db u
    let recs := prefs.categories.flatMap (fun cw =>
      match db.categories.find? (fun c => c.name == cw.1) with
      | none => []
      | some cat =>
        (db.products.filter (fun p => p.category_id == cat.id && p.is_active)).filterMap
          (fun p => if p.id ∈ up then none else some (p.id, contentScore prefs p cw.2)))
    (sortDescBy (fun x => x.2) recs).take limit

/-- `_combine_recommendations`: `0.6 × collaborative + 0.4 × content`,
accumulated per product id, sorted descending (no truncation here). -/
def combineRecommendations (collabRecs contentRecs : List (ℕ × ℚ)) : List (ℕ × ℚ) :=
  sortDescBy (fun x => x.2)
    (aggregate (collabRecs.map (fun r => (r.1, r.2 * (3/5))) ++
      contentRecs.map (fun r => (r.1, r.2 * (2/5)))))

/-- `get_user_recommendations`: combine `2 × limit` candidates from both
filters, take the top `limit`, and keep only products whose details resolve
(`_get_product_details` returns `None` for a missing product). -/
def getUserRecommendations (db : DB) (u : ℕ) (limit : ℕ) : List (ℕ × ℚ) :=
  let combined := combineRecommendations (collabFiltering db u (limit * 2))
    (contentFiltering db u (limit * 2))
  (combined.take limit).filterMap (fun r =>
    if (db.products.find? (fun p => p.id == r.1)).isSome then some r else none)

/-- `get_trending_products` windowed query: interactions with
`timestamp >= recent_date`, joined against `Product` and filtered by
category when a truthy `category_id` is given. -/
def windowInteractions (db : DB) (recentDate : ℤ) (categoryId : Option ℕ) :
    List Interaction :=
  let recent := db.interactions.filter (fun i => recentDate ≤ i.timestamp)
  if categoryId.getD 0 ≠ 0 then
    recent.filter (fun i =>
      match db.products.find? (fun p => p.id == i.product_id) with
      | some p => p.category_id == categoryId.getD 0
      | none => false)
  else recent

/-- `count(UserInteraction.id)` for one product group of the windowed query. -/
def windowCount (db : DB) (recentDate : ℤ) (categoryId : Option ℕ) (pid : ℕ) : ℕ :=
  ((windowInteractions db recentDate categoryId).filter
    (fun i => i.product_id == pid)).length

/-- `avg(UserInteraction.rating)` for one product group (SQL `AVG` ignores
`NULL`s and is `NULL` on an empty set; the caller's `avg_rating or 0` turns
that into 0). -/
def windowAvgRating (db : DB) (recentDate : ℤ) (categoryId : Option ℕ) (pid : ℕ) : ℚ :=
  let ratings := ((windowInteractions db recentDate categoryId).filter
    (fun i => i.product_id == pid)).filterMap (fun i => i.rating)
  if ratings.isEmpty then 0 else ratings.sum / (ratings.length : ℚ)

/-- `trend_score = interaction_count * (avg_rating or 0) / 5.0`. -/
def windowScore (db : DB) (recentDate : ℤ) (categoryId : Option ℕ) (pid : ℕ) : ℚ :=
  (windowCount db recentDate categoryId pid : ℚ) *
    windowAvgRating db recentDate categoryId pid / 5

/-- `get_trending_products` candidate stage: group the windowed interactions
by product, order the groups by interaction count descending, keep
`limit * 2` of them (the SQL `.limit(limit * 2)`), and score those whose
product details resolve. -/
def trendingCandidates (db : DB) (categoryId : Option ℕ) (limit : ℕ)
    (recentDate : ℤ) : List (ℕ × ℚ) :=
  let pids := ((windowInteractions db recentDate categoryId).map
    (fun i => i.product_id)).dedup
  let grouped := pids.map (fun pid => (pid, windowCount db recentDate categoryId pid))
  let pre := (sortDescBy (fun x => (x.2 : ℚ)) grouped).take (limit * 2)
  pre.filterMap (fun g =>
    if (db.products.find? (fun p => p.id == g.1)).isSome then
      some (g.1, windowScore db recentDate categoryId g.1)
    else none)

/-- `get_trending_products`: candidates sorted by trend score descending,
truncated to `limit`. -/
def getTrendingProducts (db : DB) (categoryId : Option ℕ) (limit : ℕ)
    (recentDate : ℤ) : List (ℕ × ℚ) :=
  (sortDescBy (fun x => x.2) (trendingCandidates db categoryId limit recentDate)).take limit

/-- `track_user_interaction`: the whole body sits in
`try: session.add; session.commit; ... except: logger.error; session.rollback()`.
`commitOk` says whether the store append/commit succeeds.  The result is the
new interaction log together with the outcome visible to the caller
(`none` = the method returns normally, `some msg` would be a propagated
error).  On failure the session is rolled back (log unchanged) and the
exception is swallowed after logging, so the caller always sees `none`. -/
def trackUserInteraction (log : List Interaction) (commitOk : Bool)
    (i : Interaction) : List Interaction × Option String :=
  if commitOk then (log ++ [i], none)
  else (log, none)

/-- A product id surfaced by any stage of the recommendation pipeline for a
user: collaborative, content-based, or the combined `get_user_recommendations`. -/
def recommendedAnywhere (db : DB) (u : ℕ) (limit : ℕ) (pid : ℕ) : Prop :=
  (∃ s, (pid, s) ∈ collabFiltering db u limit) ∨
  (∃ s, (pid, s) ∈ contentFiltering db u limit) ∨
  (∃ s, (pid, s) ∈ getUserRecommendations db u limit)

/-! ## Concrete store snapshots used as test fixtures -/

/-- Scenario A of the spec: user 1 viewed product 1 and purchased product 2
(rating 5); user 2 viewed product 1 and purchased product 3 (rating 4). -/
def dbScenarioA : DB :=
  { users := [1, 2]
    categories := [⟨10, "electronics"⟩]
    products :=
      [⟨1, 10, none, none, none, 0, true⟩,
       ⟨2, 10, none, none, none, 0, true⟩,
       ⟨3, 10, none, none, none, 0, true⟩]
    interactions :=
      [⟨1, 1, "view", none, 0⟩,
       ⟨1, 2, "purchase", some 5, 0⟩,
       ⟨2, 1, "view", none, 0⟩,
       ⟨2, 3, "purchase", some 4, 0⟩] }

/-- Scenario for the cold-start penalty: user 1 viewed product 1; product 2
is an active product of the same category with `average_rating = 0` (no
reviews) that user 1 never touched. -/
def dbScenarioB : DB :=
  { users := [1]
    categories := [⟨10, "electronics"⟩]
    products :=
      [⟨1, 10, none, none, none, 4, true⟩,
       ⟨2, 10, none, none, none, 0, true⟩]
    interactions := [⟨1, 1, "view", none, 0⟩] }

/-- Trending scenario: in the 7-day window product 1 has 3 interactions
rated 1, product 2 has 2 interactions rated 1, product 3 has a single
interaction rated 5. -/
def dbTrend : DB :=
  { users := [1, 2, 3]
    categories := [⟨10, "electronics"⟩]
    products :=
      [⟨1, 10, none, none, none, 0, true⟩,
       ⟨2, 10, none, none, none, 0, true⟩,
       ⟨3, 10, none, none, none, 0, true⟩]
    interactions :=
      [⟨1, 1, "view", some 1, 0⟩,
       ⟨2, 1, "view", some 1, 0⟩,
       ⟨3, 1, "view", some 1, 0⟩,
       ⟨1, 2, "view", some 1, 0⟩,
       ⟨2, 2, "view", some 1, 0⟩,
       ⟨3, 3, "view", some 5, 0⟩] }

/-- A well-formed product: branded, both price bounds set, rated. -/
def prodW : Product := ⟨5, 1, some "acme", some 10, some 20, 4, true⟩

/-! ## Helper lemmas about sorting -/

theorem mem_insertDescBy {α : Type} (key : α → ℚ) (a x : α) (l : List α) :
    x ∈ insertDescBy key a l ↔ x = a ∨ x ∈ l := by
  induction l with
  | nil => simp [insertDescBy]
  | cons y ys ih =>
    rw [insertDescBy]
    split
    · simp
    · simp only [List.mem_cons, ih]
      tauto

theorem mem_sortDescBy_foldl {α : Type} (key : α → ℚ) (l acc : List α) (x : α) :
    x ∈ l.foldl (fun a y => insertDescBy key y a) acc ↔ x ∈ acc ∨ x ∈ l := by
  induction l generalizing acc with
  | nil => simp
  | cons y ys ih =>
    simp only [List.foldl_cons, ih, mem_insertDescBy, List.mem_cons]
    tauto

theorem mem_sortDescBy {α : Type} (key : α → ℚ) (l : List α) (x : α) :
    x ∈ sortDescBy key l ↔ x ∈ l := by
  unfold sortDescBy
  rw [mem_sortDescBy_foldl]
  simp

theorem pairwise_insertDescBy {α : Type} (key : α → ℚ) (a : α) (l : List α)
    (h : l.Pairwise (fun x y => key y ≤ key x)) :
    (insertDescBy key a l).Pairwise (fun x y => key y ≤ key x) := by
  induction l with
  | nil => simp [insertDescBy]
  | cons y ys ih =>
    rcases List.pairwise_cons.1 h with ⟨hy, hys⟩
    rw [insertDescBy]
    split
    · rename_i hlt
      refine List.pairwise_cons.2 ⟨?_, h⟩
      intro z hz
      rcases List.mem_cons.1 hz with rfl | hz
      · exact le_of_lt hlt
      · exact le_trans (hy z hz) (le_of_lt hlt)
    · rename_i hnlt
      refine List.pairwise_cons.2 ⟨?_, ih hys⟩
      intro z hz
      rcases (mem_insertDescBy key a z ys).1 hz with rfl | hz
      · exact le_of_not_lt hnlt
      · exact hy z hz

theorem pairwise_sortDescBy_foldl {α : Type} (key : α → ℚ) (l acc : List α)
    (hacc : acc.Pairwise (fun x y => key y ≤ key x)) :
    (l.foldl (fun a y => insertDescBy key y a) acc).Pairwise
      (fun x y => key y ≤ key x) := by
  induction l generalizing acc with
  | nil => simpa using hacc
  | cons y ys ih => exact ih _ (pairwise_insertDescBy key y acc hacc)

theorem pairwise_sortDescBy {α : Type} (key : α → ℚ) (l : List α) :
    (sortDescBy key l).Pairwise (fun x y => key y ≤ key x) :=
  pairwise_sortDescBy_foldl key l [] (by simp)

theorem key_le_of_take_drop {α : Type} (key : α → ℚ) (l : List α) (n : ℕ)
    (h : l.Pairwise (fun x y => key y ≤ key x)) (a b : α)
    (ha : a ∈ l.take n) (hb : b ∈ l.drop n) : key b ≤ key a := by
  rw [← List.take_append_drop n l] at h
  exact (List.pairwise_append.1 h).2.2 a ha b hb

/-! ## Helper lemmas about `bump` / `aggregate` -/

theorem mem_keys_bump {κ : Type} [DecidableEq κ] (m : List (κ × ℚ)) (k0 : κ)
    (w : ℚ) (k : κ) (h : k ∈ (bump m k0 w).map Prod.fst) :
    k ∈ m.map Prod.fst ∨ k = k0 := by
  induction m with
  | nil =>
    simp [bump] at h
    simp [h]
  | cons a rest ih =>
    rw [bump] at h
    split at h
    · simp only [List.map_cons, List.mem_cons] at h ⊢
      tauto
    · simp only [List.map_cons, List.mem_cons] at h ⊢
      rcases h with h | h
      · tauto
      · rcases ih h with h1 | h1 <;> tauto

theorem mem_keys_aggregate_foldl {κ : Type} [DecidableEq κ]
    (l : List (κ × ℚ)) (m : List (κ × ℚ)) (kv : κ × ℚ)
    (h : kv ∈ l.foldl (fun acc x => bump acc x.1 x.2) m) :
    kv.1 ∈ m.map Prod.fst ∨ kv.1 ∈ l.map Prod.fst := by
  induction l generalizing m with
  | nil =>
    simp only [List.foldl_nil] at h
    exact Or.inl (List.mem_map_of_mem Prod.fst h)
  | cons a rest ih =>
    simp only [List.foldl_cons] at h
    rcases ih (bump m a.1 a.2) h with h1 | h1
    · rcases mem_keys_bump m a.1 a.2 kv.1 h1 with h2 | h2
      · exact Or.inl h2
      · right
        simp [h2]
    · right
      simp only [List.map_cons, List.mem_cons]
      tauto

theorem mem_keys_aggregate {κ : Type} [DecidableEq κ] (l : List (κ × ℚ))
    (kv : κ × ℚ) (h : kv ∈ aggregate l) : kv.1 ∈ l.map Prod.fst := by
  rcases mem_keys_aggregate_foldl l [] kv h with h1 | h1
  · simp at h1
  · exact h1

theorem pos_of_mem_bump {κ : Type} [DecidableEq κ] {m : List (κ × ℚ)} {k : κ}
    {w : ℚ} (hm : ∀ kv ∈ m, 0 < kv.2) (hw : 0 < w) :
    ∀ kv ∈ bump m k w, 0 < kv.2 := by
  induction m with
  | nil =>
    intro kv hkv
    simp [bump] at hkv
    simp [hkv, hw]
  | cons a rest ih =>
    intro kv hkv
    rw [bump] at hkv
    split at hkv
    · rcases List.mem_cons.1 hkv with rfl | h
      · exact add_pos (hm a (by simp)) hw
      · exact hm kv (List.mem_cons_of_mem _ h)
    · rcases List.mem_cons.1 hkv with rfl | h
      · exact hm _ (by simp)
      · exact ih (fun kv2 h2 => hm kv2 (List.mem_cons_of_mem _ h2)) kv h

theorem pos_of_mem_aggregate_foldl {κ : Type} [DecidableEq κ]
    (l : List (κ × ℚ)) :
    ∀ (m : List (κ × ℚ)), (∀ kv ∈ l, 0 < kv.2) → (∀ kv ∈ m, 0 < kv.2) →
      ∀ kv ∈ l.foldl (fun acc x => bump acc x.1 x.2) m, 0 < kv.2 := by
  induction l with
  | nil =>
    intro m _ hm
    simpa using hm
  | cons a rest ih =>
    intro m hl hm kv hkv
    simp only [List.foldl_cons] at hkv
    exact ih (bump m a.1 a.2) (fun kv2 h2 => hl kv2 (List.mem_cons_of_mem _ h2))
      (pos_of_mem_bump hm (hl a (by simp))) kv hkv

theorem pos_of_mem_aggregate {κ : Type} [DecidableEq κ] (l : List (κ × ℚ))
    (hl : ∀ kv ∈ l, 0 < kv.2) : ∀ kv ∈ aggregate l, 0 < kv.2 :=
  pos_of_mem_aggregate_foldl l [] hl (by simp)

theorem sum_map_div {α : Type} (l : List α) (f : α → ℚ) (t : ℚ) :
    (l.map (fun x => f x / t)).sum = (l.map f).sum / t := by
  induction l with
  | nil => simp
  | cons a rest ih => simp [ih, add_div]

/-! ## Helper lemmas about normalisation -/

theorem getInteractionWeight_pos (t : String) : 0 < getInteractionWeight t := by
  unfold getInteractionWeight
  split_ifs <;> norm_num

theorem normalizeW_spec (m : List (String × ℚ)) (hm : ∀ kv ∈ m, 0 < kv.2) :
    normalizeW m = [] ∨ ((normalizeW m).map (fun kv => kv.2)).sum = 1 := by
  rcases eq_or_ne m [] with rfl | hne
  · left
    simp [normalizeW]
  · right
    have htot : 0 < (m.map (fun kv => kv.2)).sum := by
      apply List.sum_pos
      · intro a ha
        rcases List.mem_map.1 ha with ⟨kv, hkv, rfl⟩
        exact hm kv hkv
      · simpa using hne
    simp only [normalizeW]
    rw [if_pos htot, List.map_map]
    show (m.map (fun kv => kv.2 / (m.map (fun kv => kv.2)).sum)).sum = 1
    rw [sum_map_div m (fun kv => kv.2), div_self (ne_of_gt htot)]

/-! ## Exclusion of already-interacted products -/

theorem collab_excludes (db : DB) (u limit pid : ℕ) (s : ℚ)
    (h : (pid, s) ∈ collabFiltering db u limit) : pid ∉ userProductSet db u := by
  unfold collabFiltering at h
  split at h
  · simp at h
  · have h1 : (pid, s) ∈ sortDescBy (fun x => x.2) (aggregate (collabContribs db u)) :=
      List.mem_of_mem_take h
    have h2 : (pid, s) ∈ aggregate (collabContribs db u) :=
      (mem_sortDescBy _ _ _).1 h1
    have h3 : pid ∈ (collabContribs db u).map Prod.fst :=
      mem_keys_aggregate _ _ h2
    rcases List.mem_map.1 h3 with ⟨kv, hkv, hfst⟩
    unfold collabContribs at hkv
    rcases List.mem_flatMap.1 hkv with ⟨sv, _, hkv2⟩
    rcases List.mem_filterMap.1 hkv2 with ⟨i, _, hif⟩
    by_cases hmem : i.product_id ∈ userProductSet db u
    · rw [if_pos hmem] at hif
      exact absurd hif (by simp)
    · rw [if_neg hmem] at hif
      have hx := Option.some_inj.1 hif
      rw [← hx] at hfst
      simpa [← hfst] using hmem

theorem content_excludes (db : DB) (u limit pid : ℕ) (s : ℚ)
    (h : (pid, s) ∈ contentFiltering db u limit) : pid ∉ userProductSet db u := by
  simp only [contentFiltering] at h
  split at h
  · simp at h
  · have h1 := List.mem_of_mem_take h
    have h2 := (mem_sortDescBy _ _ _).1 h1
    rcases List.mem_flatMap.1 h2 with ⟨cw, _, hmem2⟩
    rcases hfind : (db.categories.find? (fun c => c.name == cw.1)) with _ | cat
    · rw [hfind] at hmem2
      simp at hmem2
    · rw [hfind] at hmem2
      rcases List.mem_filterMap.1 hmem2 with ⟨p, _, hpf⟩
      by_cases hmem : p.id ∈ userProductSet db u
      · rw [if_pos hmem] at hpf
        exact absurd hpf (by simp)
      · rw [if_neg hmem] at hpf
        have hx := Option.some_inj.1 hpf
        have : p.id = pid := congrArg Prod.fst hx
        rw [← this]
        exact hmem

theorem recs_exclude (db : DB) (u limit pid : ℕ) (s : ℚ)
    (h : (pid, s) ∈ getUserRecommendations db u limit) : pid ∉ userProductSet db u := by
  simp only [getUserRecommendations] at h
  rcases List.mem_filterMap.1 h with ⟨r, hr, hrf⟩
  split at hrf
  · cases Option.some_inj.1 hrf
    have h1 := List.mem_of_mem_take hr
    unfold combineRecommendations at h1
    have h2 := (mem_sortDescBy _ _ _).1 h1
    have h3 := mem_keys_aggregate _ _ h2
    rw [List.map_append, List.map_map, List.map_map] at h3
    rcases List.mem_append.1 h3 with h4 | h4
    · rcases List.mem_map.1 h4 with ⟨⟨p1, s1⟩, hmemc, hfst⟩
      have hp : p1 = pid := hfst
      subst hp
      exact collab_excludes db u (limit * 2) _ s1 hmemc
    · rcases List.mem_map.1 h4 with ⟨⟨p1, s1⟩, hmemc, hfst⟩
      have hp : p1 = pid := hfst
      subst hp
      exact content_excludes db u (limit * 2) _ s1 hmemc
  · exact absurd hrf (by simp)

/-- C1: for every user and every recommendation returned by the
recommendation pipeline — collaborative filtering, content-based filtering,
or their combination in `get_user_recommendations` — the recommended product
id is not among the product ids the user has at least one interaction
against; the exclusion happens on candidates before ranking, so it holds for
every element of the returned (sorted, truncated) lists. -/
theorem c1_exclusion_invariant (db : DB) (u limit pid : ℕ)
    (h : recommendedAnywhere db u limit pid) : pid ∉ userProductSet db u := by
  rcases h with ⟨s, hs⟩ | ⟨s, hs⟩ | ⟨s, hs⟩
  · exact collab_excludes db u limit pid s hs
  · exact content_excludes db u limit pid s hs
  · exact recs_exclude db u limit pid s hs

/-- C1 witness: in Scenario A the collaborative stage recommends product 3
to user 1, and product 3 is indeed outside user 1's interacted set. -/
theorem c1_exclusion_invariant_witness : (3 : ℕ) ∉ userProductSet dbScenarioA 1 :=
  c1_exclusion_invariant dbScenarioA 1 10 3
    (Or.inl ⟨4/3, by with_unfolding_all decide⟩)

/-! ## C2: the cold-start rating multiplier -/

/-- C2 counterexample: in `dbScenarioB`, product 2 has `average_rating = 0`
(zero reviews), its category carries full weight 1 in user 1's preference
model, and the Content-Based Filter returns it with the positive score 1 —
the source only multiplies by `average_rating / 5.0` when
`average_rating > 0`, so a zero-rated product is not discounted at all. -/
theorem c2_zero_rated_positive_score :
    contentFiltering dbScenarioB 1 10 = [(2, 1)] ∧
    (dbScenarioB.products.find? (fun p => p.id == 2)).map
      (fun p => p.average_rating) = some 0 ∧
    (0 : ℚ) < 1 := by
  refine ⟨?_, ?_, ?_⟩ <;> with_unfolding_all decide

/-- C2 amended: the Content-Based Filter multiplies by
`average_rating / 5.0` only when `average_rating > 0`; a product with
`average_rating = 0` keeps its undiscounted (brand-boosted) category score,
which is positive whenever the category weight is positive and the brand
weights are non-negative. -/
theorem c2_rating_multiplier_only_when_positive (prefs : Preferences)
    (p : Product) (c : ℚ) (h0 : p.average_rating = 0) (hc : 0 < c)
    (hb : ∀ kv ∈ prefs.brands, 0 ≤ kv.2) :
    c ≤ contentScore prefs p c ∧ 0 < contentScore prefs p c := by
  have hno : ¬ (0 : ℚ) < p.average_rating := by
    rw [h0]
    exact lt_irrefl 0
  simp only [contentScore, hno, if_false]
  split
  · rcases hlw : lookupWeight prefs.brands (p.brand.getD "") with _ | bw
    · exact ⟨le_refl c, hc⟩
    · show c ≤ c * (1 + bw) ∧ 0 < c * (1 + bw)
      have hbw : 0 ≤ bw := by
        rcases Option.map_eq_some'.1 hlw with ⟨kv, hfind, hkv⟩
        rw [← hkv]
        exact hb kv (List.mem_of_find?_eq_some hfind)
      constructor
      · exact le_mul_of_one_le_right (le_of_lt hc) (by linarith)
      · exact mul_pos hc (by linarith)
  · exact ⟨le_refl c, hc⟩

/-- C2 amended witness at user 1's preference model of `dbScenarioB` and the
zero-rated product 2. -/
theorem c2_rating_multiplier_only_when_positive_witness :
    (1 : ℚ) ≤ contentScore ⟨[("electronics", 1)], [], none, none, 1⟩
      ⟨2, 10, none, none, none, 0, true⟩ 1 ∧
    0 < contentScore ⟨[("electronics", 1)], [], none, none, 1⟩
      ⟨2, 10, none, none, none, 0, true⟩ 1 :=
  c2_rating_multiplier_only_when_positive _ _ 1 rfl (by norm_num) (by simp)

/-! ## C3: trending products -/

/-- C3 counterexample: with `limit = 1`, `dbTrend`'s SQL stage keeps the two
products with the most interactions in the window (products 1 and 2) and
drops product 3, whose trend score 1 strictly exceeds the returned product's
score 3/5 — so the returned list is not the global top by trend score among
all products with window activity. -/
theorem c3_count_pretruncation_counterexample :
    getTrendingProducts dbTrend none 1 0 = [(1, 3/5)] ∧
    0 < windowCount dbTrend 0 none 3 ∧
    windowScore dbTrend 0 none 3 = 1 ∧
    (3 : ℕ) ∉ (getTrendingProducts dbTrend none 1 0).map Prod.fst ∧
    (3/5 : ℚ) < 1 := by
  refine ⟨?_, ?_, ?_, ?_, ?_⟩ <;> with_unfolding_all decide

/-- C3 amended: `get_trending_products` returns the top-`limit` by trend
score among the *pre-truncated candidates* (the `2 × limit` window products
with the most interactions): every returned element is a candidate, and any
candidate scoring strictly higher than a returned element is itself
returned.  Optimality over all window-active products fails because the SQL
stage truncates by interaction count before trend scores are computed. -/
theorem c3_trending_top_of_candidates (db : DB) (cid : Option ℕ) (limit : ℕ)
    (recentDate : ℤ) (a : ℕ × ℚ)
    (ha : a ∈ getTrendingProducts db cid limit recentDate) :
    a ∈ trendingCandidates db cid limit recentDate ∧
    ∀ b ∈ trendingCandidates db cid limit recentDate,
      b.2 ≤ a.2 ∨ b ∈ getTrendingProducts db cid limit recentDate := by
  unfold getTrendingProducts at ha ⊢
  constructor
  · exact (mem_sortDescBy _ _ _).1 (List.mem_of_mem_take ha)
  · intro b hb
    have hsorted := pairwise_sortDescBy (fun x => x.2)
      (trendingCandidates db cid limit recentDate)
    have hb2 : b ∈ sortDescBy (fun x => x.2)
        (trendingCandidates db cid limit recentDate) :=
      (mem_sortDescBy _ _ _).2 hb
    rw [← List.take_append_drop limit (sortDescBy (fun x => x.2)
      (trendingCandidates db cid limit recentDate))] at hb2
    rcases List.mem_append.1 hb2 with h | h
    · exact Or.inr h
    · exact Or.inl (key_le_of_take_drop (fun x => x.2) _ limit hsorted a b ha h)

/-- C3 amended witness: the returned element `(1, 3/5)` of the `dbTrend`
scenario, checked against both conjuncts. -/
theorem c3_trending_top_of_candidates_witness :
    (1, (3 : ℚ)/5) ∈ trendingCandidates dbTrend none 1 0 ∧
    ∀ b ∈ trendingCandidates dbTrend none 1 0,
      b.2 ≤ 3/5 ∨ b ∈ getTrendingProducts dbTrend none 1 0 :=
  c3_trending_top_of_candidates dbTrend none 1 0 (1, 3/5)
    (by with_unfolding_all decide)

/-! ## C4: track_interaction failure handling -/

/-- C4: when the store append/commit fails, `track_user_interaction` rolls
the session back — the interaction log is unchanged — but its
`except: logger.error(...); session.rollback()` handler swallows the
exception, so the caller sees a normal return (`none`) instead of a
propagated error.  This contradicts the spec's propagation policy for
write failures. -/
theorem c4_track_interaction_failure_swallowed (log : List Interaction)
    (i : Interaction) : trackUserInteraction log false i = (log, none) := rfl

/-! ## C5 / C6: product similarity -/

/-- C5: a product that has a (truthy) brand and both price bounds set is
perfectly similar to itself: all four terms contribute fully and
`similarity(p, p) = 0.4 + 0.3 + 0.2 + 0.1 = 1`. -/
theorem c5_self_similarity (p : Product) (hb : truthyS p.brand = true)
    (hmin : truthyQ p.price_min = true) (hmax : truthyQ p.price_max = true) :
    calculateProductSimilarity p p = 1 := by
  unfold calculateProductSimilarity categoryTerm brandTerm priceTerm ratingTerm
  rw [if_pos rfl, if_pos ⟨hb, hb, rfl⟩, if_pos ⟨hmin, hmax, hmin, hmax⟩,
    sub_self, abs_zero, zero_div, sub_zero, sub_self, abs_zero, zero_div, sub_zero]
  norm_num

/-- C5 witness: the concrete well-formed product `prodW`. -/
theorem c5_self_similarity_witness : calculateProductSimilarity prodW prodW = 1 :=
  c5_self_similarity prodW (by with_unfolding_all decide)
    (by with_unfolding_all decide) (by with_unfolding_all decide)

theorem categoryTerm_comm (p1 p2 : Product) :
    categoryTerm p1 p2 = categoryTerm p2 p1 := by
  unfold categoryTerm
  exact if_congr ⟨fun h => h.symm, fun h => h.symm⟩ rfl rfl

theorem brandTerm_comm (p1 p2 : Product) : brandTerm p1 p2 = brandTerm p2 p1 := by
  unfold brandTerm
  refine if_congr ⟨?_, ?_⟩ rfl rfl
  · rintro ⟨a, b, c⟩
    exact ⟨b, a, c.symm⟩
  · rintro ⟨a, b, c⟩
    exact ⟨b, a, c.symm⟩

theorem priceTerm_comm (p1 p2 : Product) : priceTerm p1 p2 = priceTerm p2 p1 := by
  unfold priceTerm
  rw [abs_sub_comm (avgPrice p1) (avgPrice p2), max_comm (avgPrice p1) (avgPrice p2)]
  refine if_congr ⟨?_, ?_⟩ rfl rfl
  · rintro ⟨a, b, c, d⟩
    exact ⟨c, d, a, b⟩
  · rintro ⟨a, b, c, d⟩
    exact ⟨c, d, a, b⟩

theorem ratingTerm_comm (p1 p2 : Product) : ratingTerm p1 p2 = ratingTerm p2 p1 := by
  unfold ratingTerm
  rw [abs_sub_comm p1.average_rating p2.average_rating]

/-- C6: pairwise product similarity is symmetric — the category, brand and
rating terms are symmetric guards/values, and the price term divides by
`max(price1, price2)`, which is symmetric in the two products. -/
theorem c6_similarity_symmetric (p1 p2 : Product) :
    calculateProductSimilarity p1 p2 = calculateProductSimilarity p2 p1 := by
  unfold calculateProductSimilarity
  rw [categoryTerm_comm p1 p2, brandTerm_comm p1 p2, priceTerm_comm p1 p2,
    ratingTerm_comm p1 p2]

/-! ## C7: Scenario A -/

/-- C7: in Scenario A, `jaccard(U1, U2) = 1/3`, which exceeds the 0.1 floor,
so user 2 is user 1's (only) collaborative neighbour, and product 3 appears
in user 1's collaborative candidate list with score
`(1/3) × 5.0 × (4/5) = 4/3`. -/
theorem c7_scenario_a :
    jaccard dbScenarioA 1 2 = 1/3 ∧
    (1/10 : ℚ) < 1/3 ∧
    similarUsers dbScenarioA 1 = [(2, 1/3)] ∧
    collabFiltering dbScenarioA 1 10 = [(3, 4/3)] := by
  refine ⟨?_, ?_, ?_, ?_⟩ <;> with_unfolding_all decide

/-! ## C8: normalisation and ranges -/

theorem categoryTerm_nonneg (p1 p2 : Product) : 0 ≤ categoryTerm p1 p2 := by
  unfold categoryTerm
  split_ifs <;> norm_num

theorem categoryTerm_le (p1 p2 : Product) : categoryTerm p1 p2 ≤ 2/5 := by
  unfold categoryTerm
  split_ifs <;> norm_num

theorem brandTerm_nonneg (p1 p2 : Product) : 0 ≤ brandTerm p1 p2 := by
  unfold brandTerm
  split_ifs <;> norm_num

theorem brandTerm_le (p1 p2 : Product) : brandTerm p1 p2 ≤ 3/10 := by
  unfold brandTerm
  split_ifs <;> norm_num

theorem ratingTerm_nonneg (p1 p2 : Product) : 0 ≤ ratingTerm p1 p2 := by
  unfold ratingTerm
  exact mul_nonneg (le_max_left 0 _) (by norm_num)

theorem ratingTerm_le (p1 p2 : Product) : ratingTerm p1 p2 ≤ 1/10 := by
  unfold ratingTerm
  have hd : 0 ≤ |p1.average_rating - p2.average_rating| / 5 :=
    div_nonneg (abs_nonneg _) (by norm_num)
  have hm : max 0 (1 - |p1.average_rating - p2.average_rating| / 5) ≤ 1 :=
    max_le (by norm_num) (by linarith)
  calc max 0 (1 - |p1.average_rating - p2.average_rating| / 5) * (1/10)
      ≤ 1 * (1/10) := mul_le_mul_of_nonneg_right hm (by norm_num)
    _ = 1/10 := by norm_num

theorem priceTerm_nonneg (p1 p2 : Product) : 0 ≤ priceTerm p1 p2 := by
  unfold priceTerm
  split_ifs with h
  · exact mul_nonneg (le_max_left 0 _) (by norm_num)
  · exact le_refl 0

theorem priceTerm_le (p1 p2 : Product)
    (h1 : 0 ≤ p1.price_min.getD 0) (h2 : 0 ≤ p1.price_max.getD 0)
    (h3 : 0 ≤ p2.price_min.getD 0) (h4 : 0 ≤ p2.price_max.getD 0) :
    priceTerm p1 p2 ≤ 1/5 := by
  unfold priceTerm
  split_ifs with h
  · have ha1 : 0 ≤ avgPrice p1 := div_nonneg (add_nonneg h1 h2) (by norm_num)
    have hmax : 0 ≤ max (avgPrice p1) (avgPrice p2) :=
      le_trans ha1 (le_max_left _ _)
    have hd : 0 ≤ |avgPrice p1 - avgPrice p2| / max (avgPrice p1) (avgPrice p2) :=
      div_nonneg (abs_nonneg _) hmax
    have hm : max 0 (1 - |avgPrice p1 - avgPrice p2| /
        max (avgPrice p1) (avgPrice p2)) ≤ 1 := max_le (by norm_num) (by linarith)
    calc max 0 (1 - |avgPrice p1 - avgPrice p2| /
          max (avgPrice p1) (avgPrice p2)) * (1/5)
        ≤ 1 * (1/5) := mul_le_mul_of_nonneg_right hm (by norm_num)
      _ = 1/5 := by norm_num
  · norm_num

/-- C8: (i) each normalized preference weight map is either empty (no
qualifying interactions in that dimension) or sums to exactly 1;
(ii) Jaccard similarities lie in [0, 1]; (iii) pairwise product
similarities lie in [0, 1] (given non-negative catalog prices). -/
theorem c8_normalization_and_ranges :
    (∀ (db : DB) (u : ℕ),
      ((updateUserPreferences db u).categories = [] ∨
        (((updateUserPreferences db u).categories.map (fun kv => kv.2)).sum = 1)) ∧
      ((updateUserPreferences db u).brands = [] ∨
        (((updateUserPreferences db u).brands.map (fun kv => kv.2)).sum = 1))) ∧
    (∀ (db : DB) (u v : ℕ), 0 ≤ jaccard db u v ∧ jaccard db u v ≤ 1) ∧
    (∀ (p1 p2 : Product),
      0 ≤ p1.price_min.getD 0 → 0 ≤ p1.price_max.getD 0 →
      0 ≤ p2.price_min.getD 0 → 0 ≤ p2.price_max.getD 0 →
      0 ≤ calculateProductSimilarity p1 p2 ∧
        calculateProductSimilarity p1 p2 ≤ 1) := by
  refine ⟨?_, ?_, ?_⟩
  · intro db u
    constructor
    · have hpos : ∀ kv ∈ categoryScoresRaw db u, 0 < kv.2 := by
        apply pos_of_mem_aggregate
        intro kv hkv
        rcases List.mem_map.1 hkv with ⟨r, _, rfl⟩
        exact getInteractionWeight_pos _
      exact normalizeW_spec _ hpos
    · have hpos : ∀ kv ∈ brandScoresRaw db u, 0 < kv.2 := by
        apply pos_of_mem_aggregate
        intro kv hkv
        rcases List.mem_filterMap.1 hkv with ⟨r, _, hf⟩
        split at hf
        · cases Option.some_inj.1 hf
          exact getInteractionWeight_pos _
        · exact absurd hf (by simp)
      exact normalizeW_spec _ hpos
  · intro db u v
    unfold jaccard
    constructor
    · exact div_nonneg (Nat.cast_nonneg _) (Nat.cast_nonneg _)
    · rcases Nat.eq_zero_or_pos ((userProductSet db u ∪ userProductSet db v).card)
        with h | h
      · rw [h]
        norm_num
      · have hpos : (0 : ℚ) <
            ((userProductSet db u ∪ userProductSet db v).card : ℚ) := by
          exact_mod_cast h
        rw [div_le_one hpos]
        exact_mod_cast Finset.card_le_card Finset.inter_subset_union
  · intro p1 p2 h1 h2 h3 h4
    constructor
    · exact add_nonneg (add_nonneg (add_nonneg (categoryTerm_nonneg p1 p2)
        (brandTerm_nonneg p1 p2)) (priceTerm_nonneg p1 p2)) (ratingTerm_nonneg p1 p2)
    · have b1 := categoryTerm_le p1 p2
      have b2 := brandTerm_le p1 p2
      have b3 := priceTerm_le p1 p2 h1 h2 h3 h4
      have b4 := ratingTerm_le p1 p2
      unfold calculateProductSimilarity
      linarith

/-- C8 witness: user 1's category weights in Scenario A sum to 1, the
Jaccard value of Scenario A's two users is in range, and the well-formed
product `prodW` has in-range self-similarity. -/
theorem c8_normalization_and_ranges_witness :
    (((updateUserPreferences dbScenarioA 1).categories.map (fun kv => kv.2)).sum = 1) ∧
    (0 ≤ jaccard dbScenarioA 1 2 ∧ jaccard dbScenarioA 1 2 ≤ 1) ∧
    (0 ≤ calculateProductSimilarity prodW prodW ∧
      calculateProductSimilarity prodW prodW ≤ 1) := by
  refine ⟨?_, c8_normalization_and_ranges.2.1 dbScenarioA 1 2,
    c8_normalization_and_ranges.2.2 prodW prodW (by norm_num [prodW])
      (by norm_num [prodW]) (by norm_num [prodW]) (by norm_num [prodW])⟩
  rcases (c8_normalization_and_ranges.1 dbScenarioA 1).1 with h | h
  · exact absurd h (by with_unfolding_all decide)
  · exact h

/-! ## C9 / C10: interaction weights -/

/-- C9: in the Collaborative Filter, with the same positive neighbour
similarity and the same (non-negative) rating, a `purchase` event
contributes strictly more to a product's score than a `view` event
(weight 5.0 versus 1.0). -/
theorem c9_purchase_beats_view (sim : ℚ) (r : Option ℚ)
    (hsim : 0 < sim) (hr : 0 ≤ r.getD 0) :
    collabContribution sim "view" r < collabContribution sim "purchase" r := by
  have hv : getInteractionWeight "view" = 1 := by simp [getInteractionWeight]
  have hp : getInteractionWeight "purchase" = 5 := by simp [getInteractionWeight]
  unfold collabContribution
  rw [hv, hp]
  by_cases ht : truthyQ r
  · rw [if_pos ht, if_pos ht]
    have hne : r.getD 0 ≠ 0 := by
      cases r with
      | none => simp [truthyQ] at ht
      | some v => simpa [truthyQ] using ht
    have hpos : 0 < r.getD 0 := lt_of_le_of_ne hr (Ne.symm hne)
    have h5 : 0 < r.getD 0 / 5 := by positivity
    nlinarith [mul_pos hsim h5]
  · rw [if_neg ht, if_neg ht]
    nlinarith

/-- C9 witness: similarity 1 and rating 4. -/
theorem c9_purchase_beats_view_witness :
    collabContribution 1 "view" (some 4) < collabContribution 1 "purchase" (some 4) :=
  c9_purchase_beats_view 1 (some 4) (by norm_num) (by norm_num)

/-- C10: any interaction type outside the four documented ones gets the
dictionary default weight 1.0 — the same as a `view` — so such events still
contribute to preference models and collaborative scores exactly as a view
would, instead of being rejected. -/
theorem c10_unknown_type_default_weight (t : String)
    (h1 : t ≠ "view") (h2 : t ≠ "search") (h3 : t ≠ "review")
    (h4 : t ≠ "purchase") :
    getInteractionWeight t = 1 ∧
    getInteractionWeight t = getInteractionWeight "view" ∧
    ∀ (sim : ℚ) (r : Option ℚ),
      collabContribution sim t r = collabContribution sim "view" r := by
  have hw : getInteractionWeight t = 1 := by
    unfold getInteractionWeight
    rw [if_neg h1, if_neg h2, if_neg h3, if_neg h4]
  have hv : getInteractionWeight "view" = 1 := by simp [getInteractionWeight]
  refine ⟨hw, by rw [hw, hv], ?_⟩
  intro sim r
  unfold collabContribution
  rw [hw, hv]

/-- C10 witness: the undocumented type `"click"`. -/
theorem c10_unknown_type_default_weight_witness :
    getInteractionWeight "click" = 1 ∧
    getInteractionWeight "click" = getInteractionWeight "view" ∧
    ∀ (sim : ℚ) (r : Option ℚ),
      collabContribution sim "click" r = collabContribution sim "view" r :=
  c10_unknown_type_default_weight "click" (by decide) (by decide) (by decide)
    (by decide)

end ReviewHub
